import Mathlib

/-!
Verification of the stretched-pads pad geometry solver
(source: src/stretched_pads.py).

The Python program is shallowly embedded: Python ints and floats are
modelled by the type `PyNum` (floats as exact rationals), the command
line constraint record by `PadConstraints` (the argument parser delivers
integers for every numeric field), the interdependent-constraint
validator by `validateWith` / `validate_interdependent_constraints`,
and the two geometry builders by `build_pad_data` / `build_drawing_data`.
-/

namespace StretchedPads

/-- PAD_POS_* constants of the source: the six supported pad layouts. -/
inductive PadPosition
  | top
  | bottom
  | left
  | right
  | horizontal
  | vertical
deriving DecidableEq

/-- A Python number: either an int or a float.  Floats are modelled as
exact rationals (every value the program manipulates is a small dyadic
or decimal rational). -/
inductive PyNum
  | int (n : ℤ)
  | float (q : ℚ)
deriving DecidableEq

/-- Numeric value of a Python number. -/
def PyNum.val : PyNum → ℚ
  | .int n => n
  | .float q => q

/-- Python `int(value)`: truncation toward zero of a real value. -/
def pytrunc (q : ℚ) : ℤ := if 0 ≤ q then ⌊q⌋ else ⌈q⌉

/-- Source `float2int` (lines 33-41): `int_value = int(value); if value ==
int_value: return int_value; return value`. -/
def float2int (x : PyNum) : PyNum :=
  if PyNum.val x = (pytrunc (PyNum.val x) : ℚ) then .int (pytrunc (PyNum.val x))
  else x

/-- Python unary minus: keeps int-ness. -/
def pyneg : PyNum → PyNum
  | .int n => .int (-n)
  | .float q => .float (-q)

/-- Python `+`: int + int is int, anything involving a float is a float. -/
def pyadd : PyNum → PyNum → PyNum
  | .int a, .int b => .int (a + b)
  | a, b => .float (PyNum.val a + PyNum.val b)

/-- Python true division `/`: always produces a float. -/
def pydiv (a b : PyNum) : PyNum := .float (PyNum.val a / PyNum.val b)

/-- The constraint record assembled by the argument parser.  Every numeric
field is delivered as a Python int (argparse types `natural_number` /
`whole_number` / `int`), hence ℤ; `debug` is the non-negative bit set. -/
structure PadConstraints where
  hole_diameter : ℤ
  pad_min : ℤ
  pad_max : ℤ
  pad_position : PadPosition
  hole_padding : ℤ
  first_connector : ℤ
  row_pins : ℤ
  pad_spacing : ℤ
  keepout : ℤ
  debug : ℕ
deriving DecidableEq

/-- Field-level range guarantees of the data model (section 3 of the spec;
enforced by the external argument parser before the core is called). -/
def fieldRanges (p : PadConstraints) : Prop :=
  0 ≤ p.hole_diameter ∧ 0 < p.pad_min ∧ 0 < p.pad_max ∧ 0 ≤ p.hole_padding
    ∧ 0 ≤ p.first_connector ∧ 0 ≤ p.row_pins ∧ 0 < p.pad_spacing ∧ 0 < p.keepout

instance (p : PadConstraints) : Decidable (fieldRanges p) := by
  unfold fieldRanges
  infer_instance

/-- Source `DBG_SCALE_100_TIMES = 0x8`. -/
def DBG_SCALE_100_TIMES : ℕ := 0x8

/-- Source `DBG_SHOW_MULTIPLE_EXCEPTIONS = 0x1000`. -/
def DBG_SHOW_MULTIPLE_EXCEPTIONS : ℕ := 0x1000

/-- Truthiness of `debug & DBG_SCALE_100_TIMES`. -/
def scale_100 (debug : ℕ) : Bool := debug &&& DBG_SCALE_100_TIMES != 0

/-- Truthiness of `debug & DBG_SHOW_MULTIPLE_EXCEPTIONS`: selects the
collect-all validation mode. -/
def collectMode (debug : ℕ) : Bool := debug &&& DBG_SHOW_MULTIPLE_EXCEPTIONS != 0

/-- Membership test `pad_position in (PAD_POS_HORIZONTAL, PAD_POS_VERTICAL)`
used by both the validator and `build_pad_data`. -/
def centred (pos : PadPosition) : Bool :=
  match pos with
  | PadPosition.horizontal => true
  | PadPosition.vertical => true
  | _ => false

/-- One validation message per violated rule, carrying the concrete values
the source interpolates into the message text. -/
inductive Msg
  | padMinNotAboveHole (pad_min hole_diameter : ℤ)
  | padMaxBelowMin (pad_max pad_min : ℤ)
  | spacingTooTight (pad_spacing pad_min keepout : ℤ)
  | circularNotCentred (pos : PadPosition)
  | paddingOnCentred
  | paddingTooLarge (pad_min pad_max hole_padding : ℤ) (limit : PyNum)
deriving DecidableEq

/-- Invariant 1 (source lines 378-381): `pad_min <= hole_diameter` is an error. -/
def check_pad_min_hole (p : PadConstraints) : Option Msg :=
  if p.pad_min ≤ p.hole_diameter then some (.padMinNotAboveHole p.pad_min p.hole_diameter)
  else none

/-- Invariant 2 (source lines 382-386): `pad_max < pad_min` is an error. -/
def check_pad_max_min (p : PadConstraints) : Option Msg :=
  if p.pad_max < p.pad_min then some (.padMaxBelowMin p.pad_max p.pad_min)
  else none

/-- Invariant 3 (source lines 387-391): `pad_spacing < pad_min + keepout`
is an error. -/
def check_pad_spacing (p : PadConstraints) : Option Msg :=
  if p.pad_spacing < p.pad_min + p.keepout
  then some (.spacingTooTight p.pad_spacing p.pad_min p.keepout)
  else none

/-- Invariant 4 (source lines 392-396): a circular pad must be centred. -/
def check_circular_centred (p : PadConstraints) : Option Msg :=
  if p.pad_min = p.pad_max then
    if centred p.pad_position then none
    else some (.circularNotCentred p.pad_position)
  else none

/-- `offset_limit = float2int((pad_max - pad_min) / 2)` (source line 404). -/
def offset_limit (p : PadConstraints) : PyNum :=
  float2int (pydiv (.int (p.pad_max - p.pad_min)) (.int 2))

/-- Invariants 5 and 6 (source lines 397-411): centred positions forbid a
non-zero `hole_padding`; other positions require the padding to stay
below `offset_limit`. -/
def check_hole_padding (p : PadConstraints) : Option Msg :=
  if centred p.pad_position then
    if p.hole_padding = 0 then none else some .paddingOnCentred
  else
    if (p.hole_padding : ℚ) ≥ PyNum.val (offset_limit p)
    then some (.paddingTooLarge p.pad_min p.pad_max p.hole_padding (offset_limit p))
    else none

/-- The five `report_exception` sites of
`validate_interdependent_constraints`, in source order. -/
def checks (p : PadConstraints) : List (Option Msg) :=
  [check_pad_min_hole p, check_pad_max_min p, check_pad_spacing p,
   check_circular_centred p, check_hole_padding p]

/-- Sequencing of `report_exception` calls (source lines 361-367): in
fail-fast mode the first message raises `ValueError`; in collect mode the
message is printed and the scan continues with `exception_detected` set. -/
def runChecks (collect : Bool) : List (Option Msg) → Except Msg (List Msg)
  | [] => Except.ok []
  | none :: rest => runChecks collect rest
  | some m :: rest =>
      if collect then
        match runChecks collect rest with
        | Except.ok msgs => Except.ok (m :: msgs)
        | Except.error e => Except.error e
      else Except.error m

/-- Possible outcomes of `validate_interdependent_constraints`. -/
inductive Outcome
  /-- validation returned normally and geometry derivation follows -/
  | proceed
  /-- `except ValueError: sys.exit(exception)` (fail-fast abort) -/
  | valueErrorExit (m : Msg)
  /-- `if self.exception_detected: sys.exit()` after printing the messages -/
  | collectedExit (msgs : List Msg)
  /-- uncaught `NotImplementedError` (source lines 413-415), raised after
  any collected messages were printed -/
  | notImplemented (msgs : List Msg)
deriving DecidableEq

/-- Source `validate_interdependent_constraints` (lines 369-420) with the
reporting mode passed explicitly: run the five checks, then raise
`NotImplementedError` when `pad_max == pad_min` (uncaught: the `except`
clause only catches `ValueError`), then exit when any message was
collected. -/
def validateWith (p : PadConstraints) (collect : Bool) : Outcome :=
  match runChecks collect (checks p) with
  | Except.error m => Outcome.valueErrorExit m
  | Except.ok msgs =>
      if p.pad_max = p.pad_min then Outcome.notImplemented msgs
      else if msgs = [] then Outcome.proceed
      else Outcome.collectedExit msgs

/-- The validator as invoked by the program: the mode comes from the
`DBG_SHOW_MULTIPLE_EXCEPTIONS` debug bit. -/
def validate_interdependent_constraints (p : PadConstraints) : Outcome :=
  validateWith p (collectMode p.debug)

/-- `self.configured` orientation constants set by
`configure_for_direction` (source lines 208-229). -/
structure Frame where
  horizontal_factor : ℤ
  vertical_factor : ℤ
  u_dimension : String
  v_dimension : String
deriving DecidableEq

/-- Source `configure_for_direction` (lines 208-229). -/
def configure_for_direction (pos : PadPosition) : Frame :=
  if pos = PadPosition.horizontal ∨ pos = PadPosition.bottom ∨ pos = PadPosition.top then
    { horizontal_factor := 1, vertical_factor := 0, u_dimension := "x", v_dimension := "y" }
  else
    { horizontal_factor := 0, vertical_factor := 1, u_dimension := "y", v_dimension := "x" }

/-- Source inner class `OrientedUv` (lines 320-341): a coordinate pair
whose `x`/`y` views depend on the recorded orientation; the constructor
passes both components through `float2int`. -/
structure OrientedUv where
  is_horizontal : Bool
  u : PyNum
  v : PyNum
deriving DecidableEq

/-- `OrientedUv.x` property: the u value when horizontal, else the v value. -/
def OrientedUv.x (o : OrientedUv) : PyNum :=
  if o.is_horizontal then o.u else o.v

/-- `OrientedUv.y` property: the v value when horizontal, else the u value. -/
def OrientedUv.y (o : OrientedUv) : PyNum :=
  if o.is_horizontal then o.v else o.u

/-- Source `create_u_v` (lines 343-345) together with `OrientedUv.__init__`:
record the orientation flag and normalize both components. -/
def create_u_v (f : Frame) (uV vV : PyNum) : OrientedUv :=
  { is_horizontal := f.horizontal_factor != 0, u := float2int uV, v := float2int vV }

/-- `pad_offset` computation of `build_pad_data` (source lines 273-279). -/
def build_pad_offset (p : PadConstraints) : PyNum :=
  if centred p.pad_position then
    float2int (pydiv (.int (p.pad_max - p.pad_min)) (.int 2))
  else if p.pad_position = PadPosition.bottom ∨ p.pad_position = PadPosition.right then
    .int p.hole_padding
  else
    .int (p.pad_max - p.pad_min - p.hole_padding)

/-- The pad-level result mapping built by `build_pad_data`
(source lines 260-308), with one named field per dictionary key. -/
structure PadData where
  connector_prefix : String
  connector_suffix : String
  starting_connector : PyNum
  pin_spacing : PyNum
  hole_radius : PyNum
  full_width : PyNum
  half_width : PyNum
  full_length : PyNum
  circle_radius : PyNum
  u_dimension : String
  v_dimension : String
  base_x : PyNum
  base_y : PyNum
  outer0_dx : PyNum
  outer0_dy : PyNum
  outer1_dx : PyNum
  outer1_dy : PyNum
  outer_sweep : PyNum
  inner_sweep : PyNum
  line_direction : String
  move_dx : PyNum
  move_dy : PyNum
  inner0_dx : PyNum
  inner0_dy : PyNum
  inner1_dx : PyNum
  inner1_dy : PyNum
deriving DecidableEq

/-- Source `build_pad_data` (lines 260-308).  The second outer and inner
arc pairs reuse the first pair with the u component negated in place
(`u_v_pair.u = -u_v_pair.u`, bypassing the constructor normalization). -/
def build_pad_data (p : PadConstraints) (f : Frame) : PadData :=
  let pad_offset := build_pad_offset p
  let base_pair := create_u_v f (.int p.pad_spacing) (.int 0)
  let outer_pair := create_u_v f (.int p.pad_min) (.int 0)
  let outer_pair2 : OrientedUv := { outer_pair with u := pyneg (outer_pair.u) }
  let sweep_pair := create_u_v f (.int 1) (.int 0)
  let move_pair :=
    create_u_v f (pydiv (.int (p.pad_min - p.hole_diameter)) (.int 2)) pad_offset
  let inner_pair := create_u_v f (.int p.hole_diameter) (.int 0)
  let inner_pair2 : OrientedUv := { inner_pair with u := pyneg (inner_pair.u) }
  { connector_prefix := "connector"
    connector_suffix := "pad"
    starting_connector := .int p.first_connector
    pin_spacing := .int p.pad_spacing
    hole_radius := float2int (pydiv (.int p.hole_diameter) (.int 2))
    full_width := .int p.pad_min
    half_width := float2int (pydiv (.int p.pad_min) (.int 2))
    full_length := .int p.pad_max
    circle_radius := float2int (pydiv (.int (p.pad_min + p.hole_diameter)) (.int 4))
    u_dimension := f.u_dimension
    v_dimension := f.v_dimension
    base_x := OrientedUv.x base_pair
    base_y := OrientedUv.y base_pair
    outer0_dx := OrientedUv.x outer_pair
    outer0_dy := OrientedUv.y outer_pair
    outer1_dx := OrientedUv.x outer_pair2
    outer1_dy := OrientedUv.y outer_pair2
    outer_sweep := OrientedUv.x sweep_pair
    inner_sweep := OrientedUv.y sweep_pair
    line_direction := if OrientedUv.x sweep_pair = PyNum.int 1 then "v" else "h"
    move_dx := OrientedUv.x move_pair
    move_dy := OrientedUv.y move_pair
    inner0_dx := OrientedUv.x inner_pair
    inner0_dy := OrientedUv.y inner_pair
    inner1_dx := OrientedUv.x inner_pair2
    inner1_dy := OrientedUv.y inner_pair2 }

/-- The drawing-level result mapping built by `build_drawing_data`
(source lines 231-258). -/
structure DrawingData where
  units : String
  copper_stroke : PyNum
  px_width : PyNum
  px_height : PyNum
  unit_height : PyNum
  unit_width : PyNum
  copper1_translate_x : PyNum
  copper1_translate_y : PyNum
  pad_translate_x : PyNum
  pad_translate_y : PyNum
deriving DecidableEq

/-- Source `build_drawing_data` (lines 231-258).  `MIL_FACTOR = 1000`;
under the 100-times-scale debug bit the scale factor becomes
`float2int(1000 / 100)`. -/
def build_drawing_data (p : PadConstraints) (f : Frame) (pad : PadData) : DrawingData :=
  let pad_offset := build_pad_offset p
  let size_pair :=
    create_u_v f (.int (p.pad_min + (p.row_pins - 1) * p.pad_spacing)) (.int p.pad_max)
  let scale_factor : PyNum :=
    if scale_100 p.debug then float2int (pydiv (.int 1000) (.int 100)) else .int 1000
  let half_pad_minimum := pad.half_width
  let copper_pair := create_u_v f half_pad_minimum (pyadd half_pad_minimum pad_offset)
  let pad_pair := create_u_v f (pyneg half_pad_minimum) (pyneg pad_offset)
  { units := "in"
    copper_stroke := float2int (pydiv (.int (p.pad_min - p.hole_diameter)) (.int 2))
    px_width := OrientedUv.x size_pair
    px_height := OrientedUv.y size_pair
    unit_height := float2int (pydiv (OrientedUv.y size_pair) scale_factor)
    unit_width := float2int (pydiv (OrientedUv.x size_pair) scale_factor)
    copper1_translate_x := OrientedUv.x copper_pair
    copper1_translate_y := OrientedUv.y copper_pair
    pad_translate_x := OrientedUv.x pad_pair
    pad_translate_y := OrientedUv.y pad_pair }

/-- The geometry phase of `MakeStretched.__init__` (lines 104-114): fix the
orientation frame once, then build the pad and drawing mappings. -/
def makeStretched (p : PadConstraints) : PadData × DrawingData :=
  let f := configure_for_direction p.pad_position
  let pad := build_pad_data p f
  (pad, build_drawing_data p f pad)

/-- Overall result of one program invocation. -/
inductive RunResult
  | geometry (pad : PadData) (drawing : DrawingData)
  | aborted (o : Outcome)
deriving DecidableEq

/-- Source `my_main` (lines 520-525): validation runs first; geometry is
derived only when the validator returned normally. -/
def runProgram (p : PadConstraints) : RunResult :=
  match validate_interdependent_constraints p with
  | Outcome.proceed => RunResult.geometry (makeStretched p).1 (makeStretched p).2
  | o => RunResult.aborted o

/-- Whether a run produced the two geometry mappings. -/
def producesGeometry : RunResult → Bool
  | RunResult.geometry _ _ => true
  | RunResult.aborted _ => false

/-- Whether a validation outcome lets processing proceed. -/
def isProceed : Outcome → Bool
  | Outcome.proceed => true
  | _ => false

/-- Whether a validation outcome is the distinct unsupported-configuration
signal (`NotImplementedError`). -/
def isNotImplemented : Outcome → Bool
  | Outcome.notImplemented _ => true
  | _ => false

/-- Scenario A of the spec: centred circular pad, everything else default. -/
def scenarioA : PadConstraints :=
  { hole_diameter := 38, pad_min := 45, pad_max := 45,
    pad_position := PadPosition.horizontal, hole_padding := 0,
    first_connector := 0, row_pins := 1, pad_spacing := 100, keepout := 10,
    debug := 0 }

/-- Scenario B of the spec: centred valid three-pin row. -/
def scenarioB : PadConstraints :=
  { scenarioA with pad_max := 90, row_pins := 3 }

/-- Scenario B with a vertical row: exercises the swapped canvas axes. -/
def scenarioVert : PadConstraints :=
  { scenarioB with pad_position := PadPosition.vertical }

/-- A circular pad whose hole is too large: both invariant 1 and the
circular-only condition apply. -/
def scenarioCircularBadHole : PadConstraints :=
  { scenarioA with hole_diameter := 50 }

/-- Scenario B with an empty row. -/
def scenarioRowZero : PadConstraints :=
  { scenarioB with row_pins := 0 }

/-- Truncation of an integer is that integer. -/
lemma pytrunc_intCast (n : ℤ) : pytrunc (n : ℚ) = n := by
  unfold pytrunc
  split_ifs <;> simp

/-- A rational equals its truncation exactly when it is integral. -/
lemma pytrunc_eq_iff (q : ℚ) : q = (pytrunc q : ℚ) ↔ q.den = 1 := by
  constructor
  · intro h
    rw [h, Rat.den_intCast]
  · intro h
    obtain ⟨n, hn⟩ : ∃ n : ℤ, q = (n : ℚ) := ⟨q.num, (Rat.coe_int_num_of_den_eq_one h).symm⟩
    subst hn
    rw [pytrunc_intCast]

/-- Normalization never changes the numeric value. -/
lemma float2int_val (x : PyNum) : PyNum.val (float2int x) = PyNum.val x := by
  unfold float2int
  split_ifs with h
  · simp [PyNum.val]
    exact h.symm
  · rfl

/-- An int is untouched by normalization. -/
lemma float2int_int (n : ℤ) : float2int (PyNum.int n) = PyNum.int n := by
  unfold float2int
  rw [if_pos]
  · simp [PyNum.val, pytrunc_intCast]
  · simp [PyNum.val, pytrunc_intCast]

/-- Normalization is idempotent. -/
lemma float2int_idem (x : PyNum) : float2int (float2int x) = float2int x := by
  by_cases h : PyNum.val x = (pytrunc (PyNum.val x) : ℚ)
  · have hx : float2int x = PyNum.int (pytrunc (PyNum.val x)) := by
      unfold float2int
      rw [if_pos h]
    rw [hx, float2int_int]
  · have hx : float2int x = x := by
      unfold float2int
      rw [if_neg h]
    rw [hx]
    exact hx

/-- Negation preserves being a normalization fixed point. -/
lemma float2int_pyneg (x : PyNum) (h : float2int x = x) :
    float2int (pyneg x) = pyneg x := by
  cases x with
  | int n =>
      simp only [pyneg]
      exact float2int_int _
  | float q =>
      simp only [pyneg]
      unfold float2int
      split_ifs with hc
      · exfalso
        have hq : q = ((-(pytrunc (PyNum.val (PyNum.float (-q)))) : ℤ) : ℚ) := by
          simp only [PyNum.val] at hc ⊢
          push_cast
          linarith
        have hden : q.den = 1 := by rw [hq, Rat.den_intCast]
        have hfix : q = (pytrunc q : ℚ) := (pytrunc_eq_iff q).mpr hden
        have hint : float2int (PyNum.float q) = PyNum.int (pytrunc q) := by
          unfold float2int
          rw [if_pos (by simpa [PyNum.val] using hfix)]
          rfl
        rw [h] at hint
        exact PyNum.noConfusion hint
      · rfl

/-- The x view of an oriented pair is a fixed point of normalization as
soon as both components are. -/
lemma OrientedUv_x_norm (o : OrientedUv) (hu : float2int o.u = o.u)
    (hv : float2int o.v = o.v) : float2int (OrientedUv.x o) = OrientedUv.x o := by
  unfold OrientedUv.x
  cases h : o.is_horizontal <;> simp [h, hu, hv]

/-- The y view of an oriented pair is a fixed point of normalization as
soon as both components are. -/
lemma OrientedUv_y_norm (o : OrientedUv) (hu : float2int o.u = o.u)
    (hv : float2int o.v = o.v) : float2int (OrientedUv.y o) = OrientedUv.y o := by
  unfold OrientedUv.y
  cases h : o.is_horizontal <;> simp [h, hu, hv]

/-- Value of the interdependent-padding limit. -/
lemma offset_limit_val (p : PadConstraints) :
    PyNum.val (offset_limit p) = ((p.pad_max : ℚ) - p.pad_min) / 2 := by
  unfold offset_limit
  rw [float2int_val]
  simp only [pydiv, PyNum.val]
  push_cast
  ring

/-- In collect mode the check sequence gathers exactly the violated
messages, in order, and never raises. -/
lemma runChecks_collect (cs : List (Option Msg)) :
    runChecks true cs = Except.ok (List.filterMap id cs) := by
  induction cs with
  | nil => rfl
  | cons c rest ih =>
      cases c with
      | none => simpa [runChecks, List.filterMap_cons] using ih
      | some m => simp [runChecks, List.filterMap_cons, ih]

/-- In fail-fast mode the check sequence raises the first violated message
and collects nothing. -/
lemma runChecks_failfast (cs : List (Option Msg)) :
    runChecks false cs =
      (match (List.filterMap id cs).head? with
       | some m => Except.error m
       | none => Except.ok []) := by
  induction cs with
  | nil => rfl
  | cons c rest ih =>
      cases c with
      | none => simpa [runChecks, List.filterMap_cons] using ih
      | some m => simp [runChecks, List.filterMap_cons]

/-- No message is collected exactly when every individual check passes. -/
lemma checks_nil_iff (p : PadConstraints) :
    List.filterMap id (checks p) = [] ↔
      (check_pad_min_hole p = none ∧ check_pad_max_min p = none
        ∧ check_pad_spacing p = none ∧ check_circular_centred p = none
        ∧ check_hole_padding p = none) := by
  cases h₁ : check_pad_min_hole p <;> cases h₂ : check_pad_max_min p
    <;> cases h₃ : check_pad_spacing p <;> cases h₄ : check_circular_centred p
    <;> cases h₅ : check_hole_padding p
    <;> simp [checks, h₁, h₂, h₃, h₄, h₅]

/-- Invariant 1 passes exactly when the hole fits inside the pad minimum. -/
lemma check_pad_min_hole_none_iff (p : PadConstraints) :
    check_pad_min_hole p = none ↔ p.hole_diameter < p.pad_min := by
  unfold check_pad_min_hole
  split_ifs with h <;> simp <;> omega

/-- Invariant 2 passes exactly when the maximum dominates the minimum. -/
lemma check_pad_max_min_none_iff (p : PadConstraints) :
    check_pad_max_min p = none ↔ p.pad_min ≤ p.pad_max := by
  unfold check_pad_max_min
  split_ifs with h <;> simp <;> omega

/-- Invariant 3 passes exactly when the spacing clears minimum plus keepout. -/
lemma check_pad_spacing_none_iff (p : PadConstraints) :
    check_pad_spacing p = none ↔ p.pad_min + p.keepout ≤ p.pad_spacing := by
  unfold check_pad_spacing
  split_ifs with h <;> simp <;> omega

/-- For a centred position, a passing padding check forces zero padding. -/
lemma check_hole_padding_centred (p : PadConstraints)
    (h : centred p.pad_position = true) (hn : check_hole_padding p = none) :
    p.hole_padding = 0 := by
  unfold check_hole_padding at hn
  split_ifs at hn with h0
  exact h0

/-- For a non-centred position, a passing padding check bounds the padding
strictly below half the min-max difference. -/
lemma check_hole_padding_noncentred (p : PadConstraints)
    (h : centred p.pad_position = false) (hn : check_hole_padding p = none) :
    (p.hole_padding : ℚ) < ((p.pad_max : ℚ) - p.pad_min) / 2 := by
  unfold check_hole_padding at hn
  split_ifs at hn with hc h0 hge
  · simp [h] at hc
  · have hlt := lt_of_not_ge hge
    rw [offset_limit_val] at hlt
    exact hlt

/-- Closed form of the fail-fast validator: the first violated check is
the sole reported error and aborts the run; with no violation, only the
circular-pad condition can still stop processing. -/
lemma validateWith_false_eq (p : PadConstraints) :
    validateWith p false =
      (match (List.filterMap id (checks p)).head? with
       | some m => Outcome.valueErrorExit m
       | none => if p.pad_max = p.pad_min then Outcome.notImplemented []
                 else Outcome.proceed) := by
  unfold validateWith
  rw [runChecks_failfast]
  cases h : (List.filterMap id (checks p)).head? <;> simp [h]

/-- Closed form of the collect-all validator: every check runs, all
violated messages are gathered, and the circular-pad condition ends the
run with the distinct signal even in this mode. -/
lemma validateWith_true_eq (p : PadConstraints) :
    validateWith p true =
      (if p.pad_max = p.pad_min then Outcome.notImplemented (List.filterMap id (checks p))
       else if List.filterMap id (checks p) = [] then Outcome.proceed
       else Outcome.collectedExit (List.filterMap id (checks p))) := by
  unfold validateWith
  rw [runChecks_collect]

/-- The validator proceeds exactly when no check fires and the pad is not
circular. -/
lemma validateWith_proceed_iff (p : PadConstraints) (c : Bool) :
    validateWith p c = Outcome.proceed ↔
      (List.filterMap id (checks p) = [] ∧ ¬ p.pad_max = p.pad_min) := by
  cases c
  · rw [validateWith_false_eq]
    cases h : (List.filterMap id (checks p)).head? with
    | some m =>
        have hne : ¬ List.filterMap id (checks p) = [] := by
          intro hh
          rw [hh] at h
          exact Option.noConfusion h
        simp [hne]
    | none =>
        have hnil : List.filterMap id (checks p) = [] := by
          cases hl : List.filterMap id (checks p) with
          | nil => rfl
          | cons a as =>
              rw [hl] at h
              exact Option.noConfusion h
        split_ifs with he <;> simp [he, hnil]
  · rw [validateWith_true_eq]
    split_ifs with he hnil
    · simp [he]
    · simp [hnil, he]
    · simp [hnil, he]

/-- Boolean characterization of the proceed outcome. -/
lemma isProceed_iff (o : Outcome) : isProceed o = true ↔ o = Outcome.proceed := by
  cases o <;> simp [isProceed]

/-- The numeric consequences of a validator run that proceeds. -/
lemma proceed_facts (p : PadConstraints) (c : Bool)
    (hv : validateWith p c = Outcome.proceed) :
    p.hole_diameter < p.pad_min ∧ p.pad_min ≤ p.pad_max
      ∧ p.pad_min + p.keepout ≤ p.pad_spacing
      ∧ (centred p.pad_position = true → p.hole_padding = 0)
      ∧ (centred p.pad_position = false →
          (p.hole_padding : ℚ) < ((p.pad_max : ℚ) - p.pad_min) / 2)
      ∧ ¬ p.pad_max = p.pad_min := by
  obtain ⟨hnil, hne⟩ := (validateWith_proceed_iff p c).mp hv
  obtain ⟨h1, h2, h3, h4, h5⟩ := (checks_nil_iff p).mp hnil
  exact ⟨(check_pad_min_hole_none_iff p).mp h1,
         (check_pad_max_min_none_iff p).mp h2,
         (check_pad_spacing_none_iff p).mp h3,
         fun hc => check_hole_padding_centred p hc h5,
         fun hc => check_hole_padding_noncentred p hc h5,
         hne⟩

/-- The canvas pixel dimensions: the along-row extent lands in `px_width`
for the horizontally-arrayed layouts and in `px_height` for the
vertically-arrayed ones, and symmetrically for `pad_max`. -/
lemma px_fields (p : PadConstraints) :
    (makeStretched p).2.px_width =
      (if p.pad_position = PadPosition.horizontal ∨ p.pad_position = PadPosition.bottom
          ∨ p.pad_position = PadPosition.top
       then PyNum.int (p.pad_min + (p.row_pins - 1) * p.pad_spacing)
       else PyNum.int p.pad_max)
    ∧ (makeStretched p).2.px_height =
      (if p.pad_position = PadPosition.horizontal ∨ p.pad_position = PadPosition.bottom
          ∨ p.pad_position = PadPosition.top
       then PyNum.int p.pad_max
       else PyNum.int (p.pad_min + (p.row_pins - 1) * p.pad_spacing)) := by
  cases hp : p.pad_position <;>
    simp [makeStretched, build_drawing_data, configure_for_direction, create_u_v,
          OrientedUv.x, OrientedUv.y, float2int_int, hp]

/-- C1: for every constraint record within the documented field ranges
that passes validation, the pad offset equals the normalized value of
(pad_max - pad_min)/2 for the centred positions horizontal/vertical,
equals hole_padding for bottom/right, equals
pad_max - pad_min - hole_padding for top/left, and is non-negative (and a
fixed point of the normalizer) in every case. -/
theorem c1_pad_offset_cases (p : PadConstraints) (hf : fieldRanges p)
    (hv : validate_interdependent_constraints p = Outcome.proceed) :
    0 ≤ PyNum.val (build_pad_offset p)
    ∧ PyNum.val (build_pad_offset p) =
        (match p.pad_position with
         | PadPosition.horizontal => ((p.pad_max : ℚ) - p.pad_min) / 2
         | PadPosition.vertical => ((p.pad_max : ℚ) - p.pad_min) / 2
         | PadPosition.bottom => (p.hole_padding : ℚ)
         | PadPosition.right => (p.hole_padding : ℚ)
         | PadPosition.top => (p.pad_max : ℚ) - p.pad_min - p.hole_padding
         | PadPosition.left => (p.pad_max : ℚ) - p.pad_min - p.hole_padding)
    ∧ float2int (build_pad_offset p) = build_pad_offset p := by
  obtain ⟨h1, h2, h3, hcent, hncent, hne⟩ := proceed_facts p _ hv
  have h2q : (p.pad_min : ℚ) ≤ (p.pad_max : ℚ) := by exact_mod_cast h2
  obtain ⟨hd0, hm0, hx0, hp0, hf0, hr0, hs0, hk0⟩ := hf
  have hp0q : (0 : ℚ) ≤ (p.hole_padding : ℚ) := by exact_mod_cast hp0
  cases hp : p.pad_position
  case horizontal | vertical =>
    have hoff : build_pad_offset p
        = float2int (pydiv (.int (p.pad_max - p.pad_min)) (.int 2)) := by
      simp [build_pad_offset, hp, centred]
    have hval : PyNum.val (build_pad_offset p) = ((p.pad_max : ℚ) - p.pad_min) / 2 := by
      rw [hoff, float2int_val]
      simp only [pydiv, PyNum.val]
      push_cast
      ring
    refine ⟨?_, ?_, ?_⟩
    · rw [hval]
      linarith
    · rw [hval]
    · rw [hoff]
      exact float2int_idem _
  case bottom | right =>
    have hoff : build_pad_offset p = PyNum.int p.hole_padding := by
      simp [build_pad_offset, hp, centred]
    refine ⟨?_, ?_, ?_⟩
    · rw [hoff]
      exact hp0q
    · rw [hoff]
      simp [hp, PyNum.val]
    · rw [hoff]
      exact float2int_int _
  case top | left =>
    have hoff : build_pad_offset p
        = PyNum.int (p.pad_max - p.pad_min - p.hole_padding) := by
      simp [build_pad_offset, hp, centred]
    have hq : (p.hole_padding : ℚ) < ((p.pad_max : ℚ) - p.pad_min) / 2 := by
      apply hncent
      simp [centred, hp]
    refine ⟨?_, ?_, ?_⟩
    · rw [hoff]
      show (0 : ℚ) ≤ ((p.pad_max - p.pad_min - p.hole_padding : ℤ) : ℚ)
      push_cast
      linarith
    · rw [hoff]
      simp only [hp, PyNum.val]
      push_cast
      ring
    · rw [hoff]
      exact float2int_int _

/-- C1 witness: the theorem applied to the valid Scenario B constraints. -/
theorem c1_pad_offset_cases_witness :
    fieldRanges scenarioB
    ∧ (0 ≤ PyNum.val (build_pad_offset scenarioB)
       ∧ PyNum.val (build_pad_offset scenarioB) =
          (match scenarioB.pad_position with
           | PadPosition.horizontal => ((scenarioB.pad_max : ℚ) - scenarioB.pad_min) / 2
           | PadPosition.vertical => ((scenarioB.pad_max : ℚ) - scenarioB.pad_min) / 2
           | PadPosition.bottom => (scenarioB.hole_padding : ℚ)
           | PadPosition.right => (scenarioB.hole_padding : ℚ)
           | PadPosition.top =>
              (scenarioB.pad_max : ℚ) - scenarioB.pad_min - scenarioB.hole_padding
           | PadPosition.left =>
              (scenarioB.pad_max : ℚ) - scenarioB.pad_min - scenarioB.hole_padding)
       ∧ float2int (build_pad_offset scenarioB) = build_pad_offset scenarioB) :=
  ⟨by decide, c1_pad_offset_cases scenarioB (by decide) (by decide)⟩

/-- C2: the validator evaluates the six invariants in a fixed order; in
fail-fast mode the first violated invariant aborts evaluation and is the
sole reported error; in collect-all mode every invariant is evaluated,
exactly one message appears per broken rule (in order) and none when all
rules hold; and geometry is produced exactly when validation proceeds. -/
theorem c2_validator_reporting (p : PadConstraints) :
    validateWith p false =
      (match (List.filterMap id (checks p)).head? with
       | some m => Outcome.valueErrorExit m
       | none => if p.pad_max = p.pad_min then Outcome.notImplemented []
                 else Outcome.proceed)
    ∧ validateWith p true =
      (if p.pad_max = p.pad_min then Outcome.notImplemented (List.filterMap id (checks p))
       else if List.filterMap id (checks p) = [] then Outcome.proceed
       else Outcome.collectedExit (List.filterMap id (checks p)))
    ∧ List.filterMap id (checks p) =
        (if p.pad_min ≤ p.hole_diameter
         then [Msg.padMinNotAboveHole p.pad_min p.hole_diameter] else [])
        ++ (if p.pad_max < p.pad_min then [Msg.padMaxBelowMin p.pad_max p.pad_min] else [])
        ++ (if p.pad_spacing < p.pad_min + p.keepout
            then [Msg.spacingTooTight p.pad_spacing p.pad_min p.keepout] else [])
        ++ (if p.pad_min = p.pad_max
            then (if centred p.pad_position then []
                  else [Msg.circularNotCentred p.pad_position])
            else [])
        ++ (if centred p.pad_position
            then (if p.hole_padding = 0 then [] else [Msg.paddingOnCentred])
            else [])
        ++ (if centred p.pad_position then []
            else (if (p.hole_padding : ℚ) ≥ PyNum.val (offset_limit p)
                  then [Msg.paddingTooLarge p.pad_min p.pad_max p.hole_padding
                          (offset_limit p)]
                  else []))
    ∧ producesGeometry (runProgram p) = isProceed (validate_interdependent_constraints p) := by
  refine ⟨validateWith_false_eq p, validateWith_true_eq p, ?_, ?_⟩
  · simp only [checks, check_pad_min_hole, check_pad_max_min, check_pad_spacing,
      check_circular_centred, check_hole_padding]
    split_ifs <;> simp
  · cases h : validate_interdependent_constraints p <;>
      simp [runProgram, producesGeometry, isProceed, h]

/-- C3 counterexample: a circular pad (pad_min == pad_max == 45) whose hole
diameter 50 also violates invariant 1.  In fail-fast mode the run
terminates with the ordinary validation-failure signal (`ValueError`
exit), not with the distinct unsupported-configuration signal, so the
claim that the condition is signalled distinctly in both modes is false. -/
theorem c3_failfast_counterexample :
    scenarioCircularBadHole.pad_min = scenarioCircularBadHole.pad_max
    ∧ validate_interdependent_constraints scenarioCircularBadHole =
        Outcome.valueErrorExit (Msg.padMinNotAboveHole 45 50)
    ∧ isNotImplemented (validate_interdependent_constraints scenarioCircularBadHole)
        = false := by
  decide

/-- C3 amended: for every constraint record with pad_min == pad_max,
processing terminates before any geometry is derived in both modes; in
collect-all mode the distinct unsupported-configuration signal is always
raised; in fail-fast mode it is raised exactly when no invariant check
fires first, otherwise the run aborts as an ordinary validation failure. -/
theorem c3_circular_always_fatal (p : PadConstraints)
    (h : p.pad_min = p.pad_max) :
    producesGeometry (runProgram p) = false
    ∧ isNotImplemented (validateWith p true) = true
    ∧ validateWith p false =
        (match (List.filterMap id (checks p)).head? with
         | some m => Outcome.valueErrorExit m
         | none => Outcome.notImplemented []) := by
  have he : p.pad_max = p.pad_min := h.symm
  refine ⟨?_, ?_, ?_⟩
  · have hnp : ¬ validate_interdependent_constraints p = Outcome.proceed := by
      rw [validate_interdependent_constraints]
      intro hv
      exact ((validateWith_proceed_iff p _).mp hv).2 he
    cases hV : validate_interdependent_constraints p with
    | proceed => exact absurd hV hnp
    | valueErrorExit m => simp [runProgram, producesGeometry, hV]
    | collectedExit ms => simp [runProgram, producesGeometry, hV]
    | notImplemented ms => simp [runProgram, producesGeometry, hV]
  · rw [validateWith_true_eq, if_pos he]
    rfl
  · rw [validateWith_false_eq]
    cases hh : (List.filterMap id (checks p)).head? with
    | some m => simp [hh]
    | none => simp [hh, he]

/-- C3 witness: Scenario A (centred circular pad, all other invariants
satisfied) applied to the amended theorem: both modes end in the distinct
unsupported-configuration signal and no geometry is produced. -/
theorem c3_circular_always_fatal_witness :
    scenarioA.pad_min = scenarioA.pad_max
    ∧ (producesGeometry (runProgram scenarioA) = false
       ∧ isNotImplemented (validateWith scenarioA true) = true
       ∧ validateWith scenarioA false =
          (match (List.filterMap id (checks scenarioA)).head? with
           | some m => Outcome.valueErrorExit m
           | none => Outcome.notImplemented [])) :=
  ⟨by decide, c3_circular_always_fatal scenarioA (by decide)⟩

/-- C4: the orientation frame maps horizontal/bottom/top to factors (1,0)
with u on x and v on y, and vertical/left/right to factors (0,1) with u on
y and v on x; for all six positions the two factors form a mutually
exclusive 0/1 pair summing to 1, and recomputation from the same position
yields the same frame. -/
theorem c4_orientation_frame :
    configure_for_direction PadPosition.horizontal =
      { horizontal_factor := 1, vertical_factor := 0, u_dimension := "x", v_dimension := "y" }
    ∧ configure_for_direction PadPosition.bottom =
      { horizontal_factor := 1, vertical_factor := 0, u_dimension := "x", v_dimension := "y" }
    ∧ configure_for_direction PadPosition.top =
      { horizontal_factor := 1, vertical_factor := 0, u_dimension := "x", v_dimension := "y" }
    ∧ configure_for_direction PadPosition.vertical =
      { horizontal_factor := 0, vertical_factor := 1, u_dimension := "y", v_dimension := "x" }
    ∧ configure_for_direction PadPosition.left =
      { horizontal_factor := 0, vertical_factor := 1, u_dimension := "y", v_dimension := "x" }
    ∧ configure_for_direction PadPosition.right =
      { horizontal_factor := 0, vertical_factor := 1, u_dimension := "y", v_dimension := "x" }
    ∧ (∀ pos : PadPosition,
        ((configure_for_direction pos).horizontal_factor = 0
          ∨ (configure_for_direction pos).horizontal_factor = 1)
        ∧ ((configure_for_direction pos).vertical_factor = 0
          ∨ (configure_for_direction pos).vertical_factor = 1)
        ∧ (configure_for_direction pos).horizontal_factor
            * (configure_for_direction pos).vertical_factor = 0
        ∧ (configure_for_direction pos).horizontal_factor
            + (configure_for_direction pos).vertical_factor = 1)
    ∧ (∀ pos : PadPosition, configure_for_direction pos = configure_for_direction pos) := by
  refine ⟨by decide, by decide, by decide, by decide, by decide, by decide,
          ?_, fun pos => rfl⟩
  intro pos
  cases pos <;> decide

/-- C5 counterexample: Scenario B rotated to a vertical row passes
validation, yet its `px_width` is pad_max (90), not
pad_min + (row_pins - 1) * pad_spacing (245): the claimed width/height
formulas do not hold for all six layouts. -/
theorem c5_px_swap_counterexample :
    isProceed (validate_interdependent_constraints scenarioVert) = true
    ∧ (makeStretched scenarioVert).2.px_width = PyNum.int 90
    ∧ (makeStretched scenarioVert).2.px_height = PyNum.int 245
    ∧ decide ((makeStretched scenarioVert).2.px_width
        = PyNum.int (scenarioVert.pad_min
            + (scenarioVert.row_pins - 1) * scenarioVert.pad_spacing)) = false := by
  decide

/-- C5 amended: for every constraint record that passes validation, the
along-row extent pad_min + (row_pins - 1) * pad_spacing and the across-row
extent pad_max land in px_width and px_height respectively for the
horizontal/bottom/top layouts, and swapped for vertical/left/right. -/
theorem c5_px_extents (p : PadConstraints)
    (_hv : validate_interdependent_constraints p = Outcome.proceed) :
    (makeStretched p).2.px_width =
      (if p.pad_position = PadPosition.horizontal ∨ p.pad_position = PadPosition.bottom
          ∨ p.pad_position = PadPosition.top
       then PyNum.int (p.pad_min + (p.row_pins - 1) * p.pad_spacing)
       else PyNum.int p.pad_max)
    ∧ (makeStretched p).2.px_height =
      (if p.pad_position = PadPosition.horizontal ∨ p.pad_position = PadPosition.bottom
          ∨ p.pad_position = PadPosition.top
       then PyNum.int p.pad_max
       else PyNum.int (p.pad_min + (p.row_pins - 1) * p.pad_spacing)) :=
  px_fields p

/-- C5 witness: the amended theorem applied to Scenario B. -/
theorem c5_px_extents_witness :
    validate_interdependent_constraints scenarioB = Outcome.proceed
    ∧ ((makeStretched scenarioB).2.px_width =
        (if scenarioB.pad_position = PadPosition.horizontal
            ∨ scenarioB.pad_position = PadPosition.bottom
            ∨ scenarioB.pad_position = PadPosition.top
         then PyNum.int (scenarioB.pad_min
                + (scenarioB.row_pins - 1) * scenarioB.pad_spacing)
         else PyNum.int scenarioB.pad_max)
       ∧ (makeStretched scenarioB).2.px_height =
        (if scenarioB.pad_position = PadPosition.horizontal
            ∨ scenarioB.pad_position = PadPosition.bottom
            ∨ scenarioB.pad_position = PadPosition.top
         then PyNum.int scenarioB.pad_max
         else PyNum.int (scenarioB.pad_min
                + (scenarioB.row_pins - 1) * scenarioB.pad_spacing))) :=
  ⟨by decide, c5_px_extents scenarioB (by decide)⟩

/-- C6: Scenario B (hole 38, pad 45 by 90, horizontal, padding 0, spacing
100, keepout 10, three pins) passes validation with no messages in either
mode; the pad offset is the float 45/2 = 22.5, which is not integral and
is left unchanged by normalization; the canvas is 245 by 90 pixels. -/
theorem c6_scenario_b :
    List.filterMap id (checks scenarioB) = []
    ∧ validateWith scenarioB false = Outcome.proceed
    ∧ validateWith scenarioB true = Outcome.proceed
    ∧ build_pad_offset scenarioB = PyNum.float (45 / 2)
    ∧ float2int (PyNum.float (45 / 2)) = PyNum.float (45 / 2)
    ∧ decide ((45 / 2 : ℚ) = (pytrunc (45 / 2 : ℚ) : ℚ)) = false
    ∧ (makeStretched scenarioB).2.px_width = PyNum.int 245
    ∧ (makeStretched scenarioB).2.px_height = PyNum.int 90 := by
  have hne : ¬ ((45 : ℚ) / 2 = ((pytrunc ((45 : ℚ) / 2) : ℤ) : ℚ)) := by
    intro h
    have h2 : (45 : ℚ) = 2 * ((pytrunc ((45 : ℚ) / 2) : ℤ) : ℚ) := by
      field_simp at h
      linarith
    have h3 : (45 : ℤ) = 2 * pytrunc ((45 : ℚ) / 2) := by exact_mod_cast h2
    omega
  have hfix : float2int (PyNum.float ((45 : ℚ) / 2)) = PyNum.float ((45 : ℚ) / 2) := by
    unfold float2int
    rw [if_neg]
    simpa [PyNum.val] using hne
  have hoff : build_pad_offset scenarioB = float2int (PyNum.float ((45 : ℚ) / 2)) := by
    show float2int (pydiv (PyNum.int (scenarioB.pad_max - scenarioB.pad_min)) (PyNum.int 2))
        = float2int (PyNum.float ((45 : ℚ) / 2))
    congr 1
  refine ⟨by decide, by decide, by decide, ?_, hfix, ?_, by decide, by decide⟩
  · rw [hoff, hfix]
  · rw [decide_eq_false_iff_not]
    exact hne

/-- The debug scale factor `float2int(1000 / 100)` normalizes to the
integer 10. -/
lemma scale_factor_debug :
    float2int (pydiv (PyNum.int 1000) (PyNum.int 100)) = PyNum.int 10 := by
  have hv10 : PyNum.val (pydiv (PyNum.int 1000) (PyNum.int 100)) = ((10 : ℤ) : ℚ) := by
    simp only [pydiv, PyNum.val]
    norm_num
  unfold float2int
  rw [hv10, pytrunc_intCast]
  simp

/-- C7: two runs on the same constraints that differ only in debug_flags
produce identical pad mappings and identical pixel dimensions; the whole
drawing mapping of the first run equals that of the second with only the
unit width/height recomputed from the shared pixel dimensions using the
first run's scale divisor (10 under the 100-times-scale bit, else 1000);
and whether validation proceeds is likewise unaffected. -/
theorem c7_debug_flags_observational (p : PadConstraints) (d1 d2 : ℕ) :
    (makeStretched { p with debug := d1 }).1 = (makeStretched { p with debug := d2 }).1
    ∧ (makeStretched { p with debug := d1 }).2.px_width
        = (makeStretched { p with debug := d2 }).2.px_width
    ∧ (makeStretched { p with debug := d1 }).2.px_height
        = (makeStretched { p with debug := d2 }).2.px_height
    ∧ (makeStretched { p with debug := d1 }).2 =
        { (makeStretched { p with debug := d2 }).2 with
          unit_width := float2int (pydiv ((makeStretched { p with debug := d2 }).2.px_width)
            (if scale_100 d1 then PyNum.int 10 else PyNum.int 1000)),
          unit_height := float2int (pydiv ((makeStretched { p with debug := d2 }).2.px_height)
            (if scale_100 d1 then PyNum.int 10 else PyNum.int 1000)) }
    ∧ isProceed (validate_interdependent_constraints { p with debug := d1 })
        = isProceed (validate_interdependent_constraints { p with debug := d2 }) := by
  refine ⟨rfl, rfl, rfl, ?_, ?_⟩
  · cases hb : scale_100 d1 <;>
      simp only [makeStretched, build_drawing_data, hb, scale_factor_debug,
        Bool.false_eq_true, if_false, if_true, DrawingData.mk.injEq] <;>
      and_intros <;> first
        | rfl
        | trivial
  · have e : validate_interdependent_constraints { p with debug := d1 } = Outcome.proceed
        ↔ validate_interdependent_constraints { p with debug := d2 } = Outcome.proceed := by
      rw [validate_interdependent_constraints, validate_interdependent_constraints,
          validateWith_proceed_iff, validateWith_proceed_iff]
      exact Iff.rfl
    by_cases hq : validate_interdependent_constraints { p with debug := d1 } = Outcome.proceed
    · rw [hq, e.mp hq]
    · have hq2 : ¬ validate_interdependent_constraints { p with debug := d2 }
          = Outcome.proceed := fun hh => hq (e.mpr hh)
      have b1 : isProceed (validate_interdependent_constraints { p with debug := d1 })
          = false := by
        cases hvb : isProceed (validate_interdependent_constraints { p with debug := d1 })
        · rfl
        · exact absurd ((isProceed_iff _).mp hvb) hq
      have b2 : isProceed (validate_interdependent_constraints { p with debug := d2 })
          = false := by
        cases hvb : isProceed (validate_interdependent_constraints { p with debug := d2 })
        · rfl
        · exact absurd ((isProceed_iff _).mp hvb) hq2
      rw [b1, b2]

/-- C8: the numeric normalizer is a pure function that maps a float to the
equivalent int exactly when the value is integral (equals its truncation,
equivalently has denominator one) and returns every other value
unchanged; it is idempotent and always preserves the numeric value. -/
theorem c8_float2int_contract :
    (∀ q : ℚ, float2int (PyNum.float q) =
        if q.den = 1 then PyNum.int q.num else PyNum.float q)
    ∧ (∀ q : ℚ, q = (pytrunc q : ℚ) ↔ q.den = 1)
    ∧ (∀ x : PyNum, float2int (float2int x) = float2int x)
    ∧ (∀ x : PyNum, PyNum.val (float2int x) = PyNum.val x) := by
  refine ⟨?_, pytrunc_eq_iff, float2int_idem, float2int_val⟩
  intro q
  by_cases h : q.den = 1
  · rw [if_pos h]
    have hfix : q = (pytrunc q : ℚ) := (pytrunc_eq_iff q).mpr h
    have hnum : (q.num : ℚ) = q := Rat.coe_int_num_of_den_eq_one h
    have htr : pytrunc q = q.num := by
      have hcast : ((pytrunc q : ℤ) : ℚ) = ((q.num : ℤ) : ℚ) := by
        rw [← hfix]
        exact hnum.symm
      exact_mod_cast hcast
    have hcond : PyNum.val (PyNum.float q)
        = ((pytrunc (PyNum.val (PyNum.float q)) : ℤ) : ℚ) := by
      simpa [PyNum.val] using hfix
    unfold float2int
    rw [if_pos hcond]
    simp only [PyNum.val]
    rw [htr]
  · rw [if_neg h]
    unfold float2int
    split_ifs with hc
    · exfalso
      simp only [PyNum.val] at hc
      exact h ((pytrunc_eq_iff q).mp hc)
    · rfl

/-- The x view of a pair built by create_u_v is always normalized. -/
lemma create_u_v_x_norm (f : Frame) (uV vV : PyNum) :
    float2int (OrientedUv.x (create_u_v f uV vV)) = OrientedUv.x (create_u_v f uV vV) := by
  apply OrientedUv_x_norm
  · show float2int (float2int uV) = float2int uV
    exact float2int_idem uV
  · show float2int (float2int vV) = float2int vV
    exact float2int_idem vV

/-- The y view of a pair built by create_u_v is always normalized. -/
lemma create_u_v_y_norm (f : Frame) (uV vV : PyNum) :
    float2int (OrientedUv.y (create_u_v f uV vV)) = OrientedUv.y (create_u_v f uV vV) := by
  apply OrientedUv_y_norm
  · show float2int (float2int uV) = float2int uV
    exact float2int_idem uV
  · show float2int (float2int vV) = float2int vV
    exact float2int_idem vV

/-- The x view after the in-place u negation is still normalized. -/
lemma create_u_v_negu_x_norm (f : Frame) (uV vV : PyNum) :
    float2int (OrientedUv.x
        { create_u_v f uV vV with u := pyneg ((create_u_v f uV vV).u) })
      = OrientedUv.x { create_u_v f uV vV with u := pyneg ((create_u_v f uV vV).u) } := by
  apply OrientedUv_x_norm
  · show float2int (pyneg (float2int uV)) = pyneg (float2int uV)
    exact float2int_pyneg _ (float2int_idem uV)
  · show float2int (float2int vV) = float2int vV
    exact float2int_idem vV

/-- The y view after the in-place u negation is still normalized. -/
lemma create_u_v_negu_y_norm (f : Frame) (uV vV : PyNum) :
    float2int (OrientedUv.y
        { create_u_v f uV vV with u := pyneg ((create_u_v f uV vV).u) })
      = OrientedUv.y { create_u_v f uV vV with u := pyneg ((create_u_v f uV vV).u) } := by
  apply OrientedUv_y_norm
  · show float2int (pyneg (float2int uV)) = pyneg (float2int uV)
    exact float2int_pyneg _ (float2int_idem uV)
  · show float2int (float2int vV) = float2int vV
    exact float2int_idem vV

/-- C9: every numeric field of the pad mapping and of the drawing mapping
is a fixed point of the numeric normalizer, because each derived value is
normalized before it is stored (directly, via the OrientedUv constructor,
or by arising from an already-integral input). -/
theorem c9_normalized_fields (p : PadConstraints) :
    float2int ((makeStretched p).1.starting_connector)
      = (makeStretched p).1.starting_connector
    ∧ float2int ((makeStretched p).1.pin_spacing) = (makeStretched p).1.pin_spacing
    ∧ float2int ((makeStretched p).1.hole_radius) = (makeStretched p).1.hole_radius
    ∧ float2int ((makeStretched p).1.full_width) = (makeStretched p).1.full_width
    ∧ float2int ((makeStretched p).1.half_width) = (makeStretched p).1.half_width
    ∧ float2int ((makeStretched p).1.full_length) = (makeStretched p).1.full_length
    ∧ float2int ((makeStretched p).1.circle_radius) = (makeStretched p).1.circle_radius
    ∧ float2int ((makeStretched p).1.base_x) = (makeStretched p).1.base_x
    ∧ float2int ((makeStretched p).1.base_y) = (makeStretched p).1.base_y
    ∧ float2int ((makeStretched p).1.outer0_dx) = (makeStretched p).1.outer0_dx
    ∧ float2int ((makeStretched p).1.outer0_dy) = (makeStretched p).1.outer0_dy
    ∧ float2int ((makeStretched p).1.outer1_dx) = (makeStretched p).1.outer1_dx
    ∧ float2int ((makeStretched p).1.outer1_dy) = (makeStretched p).1.outer1_dy
    ∧ float2int ((makeStretched p).1.outer_sweep) = (makeStretched p).1.outer_sweep
    ∧ float2int ((makeStretched p).1.inner_sweep) = (makeStretched p).1.inner_sweep
    ∧ float2int ((makeStretched p).1.move_dx) = (makeStretched p).1.move_dx
    ∧ float2int ((makeStretched p).1.move_dy) = (makeStretched p).1.move_dy
    ∧ float2int ((makeStretched p).1.inner0_dx) = (makeStretched p).1.inner0_dx
    ∧ float2int ((makeStretched p).1.inner0_dy) = (makeStretched p).1.inner0_dy
    ∧ float2int ((makeStretched p).1.inner1_dx) = (makeStretched p).1.inner1_dx
    ∧ float2int ((makeStretched p).1.inner1_dy) = (makeStretched p).1.inner1_dy
    ∧ float2int ((makeStretched p).2.copper_stroke) = (makeStretched p).2.copper_stroke
    ∧ float2int ((makeStretched p).2.px_width) = (makeStretched p).2.px_width
    ∧ float2int ((makeStretched p).2.px_height) = (makeStretched p).2.px_height
    ∧ float2int ((makeStretched p).2.unit_height) = (makeStretched p).2.unit_height
    ∧ float2int ((makeStretched p).2.unit_width) = (makeStretched p).2.unit_width
    ∧ float2int ((makeStretched p).2.copper1_translate_x)
      = (makeStretched p).2.copper1_translate_x
    ∧ float2int ((makeStretched p).2.copper1_translate_y)
      = (makeStretched p).2.copper1_translate_y
    ∧ float2int ((makeStretched p).2.pad_translate_x) = (makeStretched p).2.pad_translate_x
    ∧ float2int ((makeStretched p).2.pad_translate_y) = (makeStretched p).2.pad_translate_y := by
  and_intros <;> first
    | exact float2int_int _
    | exact float2int_idem _
    | exact create_u_v_x_norm _ _ _
    | exact create_u_v_y_norm _ _ _
    | exact create_u_v_negu_x_norm _ _ _
    | exact create_u_v_negu_y_norm _ _ _

/-- C10: with row_pins = 0 and every validation check passing (the
validator never consults row_pins), the along-row pixel extent
pad_min + (row_pins - 1) * pad_spacing equals pad_min - pad_spacing,
which is strictly negative because validation enforces
pad_spacing >= pad_min + keepout with keepout > 0; this negative extent
is exposed to the renderer as one of the two canvas pixel dimensions. -/
theorem c10_row_pins_zero (p : PadConstraints) (hf : fieldRanges p)
    (hv : validate_interdependent_constraints p = Outcome.proceed)
    (hz : p.row_pins = 0) :
    p.pad_min + (p.row_pins - 1) * p.pad_spacing = p.pad_min - p.pad_spacing
    ∧ p.pad_min - p.pad_spacing < 0
    ∧ ((makeStretched p).2.px_width = PyNum.int (p.pad_min - p.pad_spacing)
       ∨ (makeStretched p).2.px_height = PyNum.int (p.pad_min - p.pad_spacing))
    ∧ (∀ n : ℤ, ∀ c : Bool, validateWith { p with row_pins := n } c = validateWith p c) := by
  obtain ⟨h1, h2, h3, hcent, hncent, hne⟩ := proceed_facts p _ hv
  obtain ⟨hd0, hm0, hx0, hp0, hf0, hr0, hs0, hk0⟩ := hf
  have hext : p.pad_min + (p.row_pins - 1) * p.pad_spacing = p.pad_min - p.pad_spacing := by
    rw [hz]
    ring
  refine ⟨hext, by omega, ?_, fun n c => rfl⟩
  obtain ⟨hw, hh⟩ := px_fields p
  by_cases hcl : p.pad_position = PadPosition.horizontal
      ∨ p.pad_position = PadPosition.bottom ∨ p.pad_position = PadPosition.top
  · left
    rw [hw, if_pos hcl, hext]
  · right
    rw [hh, if_neg hcl, hext]

/-- C10 witness: Scenario B with zero row pins still validates, and its
canvas pixel width is the negative value 45 - 100 = -55. -/
theorem c10_row_pins_zero_witness :
    fieldRanges scenarioRowZero
    ∧ validate_interdependent_constraints scenarioRowZero = Outcome.proceed
    ∧ scenarioRowZero.row_pins = 0
    ∧ (scenarioRowZero.pad_min
          + (scenarioRowZero.row_pins - 1) * scenarioRowZero.pad_spacing
        = scenarioRowZero.pad_min - scenarioRowZero.pad_spacing
       ∧ scenarioRowZero.pad_min - scenarioRowZero.pad_spacing < 0
       ∧ ((makeStretched scenarioRowZero).2.px_width
            = PyNum.int (scenarioRowZero.pad_min - scenarioRowZero.pad_spacing)
          ∨ (makeStretched scenarioRowZero).2.px_height
            = PyNum.int (scenarioRowZero.pad_min - scenarioRowZero.pad_spacing))
       ∧ (∀ n : ℤ, ∀ c : Bool,
            validateWith { scenarioRowZero with row_pins := n } c
              = validateWith scenarioRowZero c)) :=
  ⟨by decide, by decide, rfl,
   c10_row_pins_zero scenarioRowZero (by decide) (by decide) rfl⟩

end StretchedPads
